import Mathlib

/-!
Shallow embedding of the presence core of the `notionapp` repository:
the presence state machine and heartbeat (`presence.service.ts`,
class `PresenceService`), the tab registry reader (`tabs.store.ts`,
class `TabsStore`) and the local identity store (`session.service.ts`,
class `SessionService`).  Timestamps (`Date.now()`, `new Date()`) are
modelled as integers counting milliseconds; the supabase client is
modelled by its observable effect (the row passed to `upsert`, the
`{data, error}` result of a query).
-/

namespace NotionApp

/-- The three presence states `'active' | 'idle' | 'stale'`. -/
inductive PresState
  | active
  | idle
  | stale
deriving DecidableEq, Repr

/-- `idleTimeout = 5 * 60 * 1000` (PresenceService). -/
def idleTimeout : Int := 5 * 60 * 1000

/-- `staleTimeout = 30 * 60 * 1000` (PresenceService). -/
def staleTimeout : Int := 30 * 60 * 1000

/-- `heartbeatInterval = 30000` (PresenceService). -/
def heartbeatInterval : Int := 30000

/-- The in-memory presence record (interface `TabPresence`). -/
structure TabPresence where
  userId : String
  deviceId : String
  tabId : String
  isActive : Bool
  lastSeen : Int
  userAgent : String
  state : PresState
deriving DecidableEq, Repr

/-- The state-machine branch inside `PresenceService.updatePresenceState`:
`if (t > staleTimeout) stale; else if (t > idleTimeout || !active) idle; else active`. -/
def computeState (timeSinceLastActivity : Int) (isCurrentlyActive : Bool) : PresState :=
  if timeSinceLastActivity > staleTimeout then .stale
  else if timeSinceLastActivity > idleTimeout ∨ isCurrentlyActive = false then .idle
  else .active

/-- `PresenceService.updatePresenceState`: reads the current record from
`tabPresenceSubject` (nothing happens when it is `null`), computes
`timeSinceLastActivity = now - lastActivityTime`, derives the state and
publishes `{ ...presence, isActive, lastSeen: new Date(), state }`. -/
def updatePresenceState (now lastActivityTime : Int) (isCurrentlyActive : Bool) :
    Option TabPresence → Option TabPresence
  | none => none
  | some presence =>
    let timeSinceLastActivity := now - lastActivityTime
    let state := computeState timeSinceLastActivity isCurrentlyActive
    some { presence with
           isActive := isCurrentlyActive
           lastSeen := now
           state := state }

/-- The record built at the start of `PresenceService.initializePresence`. -/
def initialPresence (userId deviceId tabId userAgent : String) (now : Int) : TabPresence :=
  { userId := userId
    deviceId := deviceId
    tabId := tabId
    isActive := true
    lastSeen := now
    userAgent := userAgent
    state := .active }

/-- The row object passed to `supabase.from('user_tabs').upsert(...)` in
`PresenceService.upsertPresence` (also the shape of a stored row minus
`created_at`). -/
structure TabRow where
  user_id : String
  device_id : String
  tab_id : String
  user_agent : String
  is_active : Bool
  last_seen : Int
deriving DecidableEq, Repr

/-- The row literal that `PresenceService.upsertPresence` sends:
`{ user_id, device_id, tab_id, user_agent, is_active, last_seen: lastSeen.toISOString() }`. -/
def presenceRow (p : TabPresence) : TabRow :=
  { user_id := p.userId
    device_id := p.deviceId
    tab_id := p.tabId
    user_agent := p.userAgent
    is_active := p.isActive
    last_seen := p.lastSeen }

/-- `PresenceService.upsertPresence`: reads the current record (nothing
happens when it is `null`), sends `presenceRow` to the store and, when the
call returns an `error` value, logs `'Failed to upsert presence:'` and
returns.  The supabase client reports failures through the returned
`error` field (modelled by the `writeError` argument); the record itself
is never modified and no retry is issued.  The result is the attempted
row (if any) together with the console-error log of the call. -/
def upsertPresence (tabPresence : Option TabPresence) (writeError : Option String) :
    Option TabRow × List String :=
  match tabPresence with
  | none => (none, [])
  | some presence =>
    match writeError with
    | some e => (some (presenceRow presence), ["Failed to upsert presence: " ++ e])
    | none => (some (presenceRow presence), [])

/-- Environment of one heartbeat tick: the wall clock at the tick, the
activity-monitor state it reads (`lastActivityTime`,
`isTabActiveSubject.value`) and the outcome of the remote write. -/
structure TickInput where
  now : Int
  lastActivityTime : Int
  isCurrentlyActive : Bool
  writeError : Option String
deriving DecidableEq, Repr

/-- One iteration of the `startHeartbeat` subscription:
`updatePresenceState(); await upsertPresence();`.  Returns the new
in-memory record, the row the write attempted and the log. -/
def heartbeatTick (st : Option TabPresence) (i : TickInput) :
    Option TabPresence × Option TabRow × List String :=
  let st' := updatePresenceState i.now i.lastActivityTime i.isCurrentlyActive st
  let w := upsertPresence st' i.writeError
  (st', w.1, w.2)

/-- The heartbeat loop run over a list of tick environments, collecting the
attempted write and log of every tick. -/
def runHeartbeat (st : Option TabPresence) :
    List TickInput → Option TabPresence × List (Option TabRow × List String)
  | [] => (st, [])
  | i :: rest =>
    let r := heartbeatTick st i
    let k := runHeartbeat r.1 rest
    (k.1, r.2 :: k.2)

/-- `PresenceService.initializePresence userId`: builds the initial record
from the session identifiers, publishes it and immediately upserts it
(`upsertPresence`) before starting the heartbeat.  There is no check on
`userId`.  Returns the published record, the row of the immediate upsert
and its log. -/
def initializePresence (userId deviceId tabId userAgent : String) (now : Int)
    (writeError : Option String) : Option TabPresence × Option TabRow × List String :=
  let presence := initialPresence userId deviceId tabId userAgent now
  let w := upsertPresence (some presence) writeError
  (some presence, w.1, w.2)

/-- Activity-monitor state of `PresenceService`: the module field
`lastActivityTime` and `isTabActiveSubject.value`. -/
structure ActivityState where
  lastActivityTime : Int
  isFocused : Bool
deriving DecidableEq, Repr

/-- The five event sources registered by
`PresenceService.setupActivityTracking` (the `visibilitychange` listener
split into its `visible` and hidden branches). -/
inductive ActivityEvent
  | focus
  | blur
  | visibilityVisible
  | visibilityHidden
  | mousedown
  | keydown
  | touchstart
deriving DecidableEq, Repr

/-- The handlers installed by `setupActivityTracking`, as a transition on
the activity state given the wall clock `now` (`Date.now()`). -/
def applyActivityEvent (now : Int) (s : ActivityState) : ActivityEvent → ActivityState
  | .focus => { s with isFocused := true, lastActivityTime := now }
  | .blur => { s with isFocused := false }
  | .visibilityVisible => { s with isFocused := true, lastActivityTime := now }
  | .visibilityHidden => { s with isFocused := false }
  | .mousedown => { s with lastActivityTime := now }
  | .keydown => { s with lastActivityTime := now }
  | .touchstart => { s with lastActivityTime := now }

/-- A stored row as fetched by `TabsStore` (interface `Tab`);
`last_seen` and `created_at` timestamps in milliseconds. -/
structure Tab where
  user_id : String
  device_id : String
  tab_id : String
  user_agent : String
  is_active : Bool
  last_seen : Int
  created_at : Int
deriving DecidableEq, Repr

/-- One `(deviceId, tabs[])` group of `TabsStore.groupedTabs`. -/
structure GroupedTabs where
  deviceId : String
  tabs : List Tab
deriving DecidableEq, Repr

/-- One step of the `forEach` body in `TabsStore.groupedTabs`: a JS `Map`
preserves key insertion order, so it is an association list; a new
`device_id` appends a new group at the end, an existing one pushes the
tab at the end of its group. -/
def insertTab (groups : List GroupedTabs) (t : Tab) : List GroupedTabs :=
  match groups with
  | [] => [⟨t.device_id, [t]⟩]
  | g :: rest =>
    if g.deviceId = t.device_id then ⟨g.deviceId, g.tabs ++ [t]⟩ :: rest
    else g :: insertTab rest t

/-- `TabsStore.groupedTabs`: fold the `forEach` body over the fetched tabs
and read the groups back in map insertion order. -/
def groupedTabs (tabs : List Tab) : List GroupedTabs := tabs.foldl insertTab []

/-- `TabsStore.getTabState`: classification of a fetched row from
`now - last_seen` alone. -/
def getTabState (now : Int) (tab : Tab) : PresState :=
  let diffMs := now - tab.last_seen
  if diffMs > 30 * 60 * 1000 then .stale
  else if diffMs > 5 * 60 * 1000 then .idle
  else .active

/-- The signal state of `TabsStore`: `allTabsSignal`, `isLoadingSignal`,
`errorSignal`. -/
structure TabsStoreState where
  allTabs : List Tab
  isLoading : Bool
  error : Option String
deriving DecidableEq, Repr

/-- Outcome of one supabase `select` call in `TabsStore.fetchTabs`: the
destructured `{ data, error }` result, or a thrown exception caught by the
surrounding `try`. -/
inductive FetchResult
  | res (data : Option (List Tab)) (error : Option String)
  | thrown (msg : String)
deriving DecidableEq, Repr

/-- `TabsStore.fetchTabs userId`: with a falsy `userId` it sets the error
signal and returns at once; otherwise it sets loading, clears the error,
runs the query, and on an `error` result or a thrown exception records the
message and leaves `allTabsSignal` untouched; only a non-null `data`
replaces `allTabsSignal`.  The `finally` clause clears loading. -/
def fetchTabs (st : TabsStoreState) (userId : String) (result : FetchResult) :
    TabsStoreState :=
  if userId = "" then { st with error := some "No user ID provided" }
  else
    let st1 : TabsStoreState := { st with isLoading := true, error := none }
    let st2 : TabsStoreState :=
      match result with
      | .thrown msg => { st1 with error := some msg }
      | .res data err =>
        match err with
        | some e => { st1 with error := some e }
        | none =>
          match data with
          | some tabs => { st1 with allTabs := tabs }
          | none => st1
    { st2 with isLoading := false }

/-- The key-value storage boundary (`localStorage` / `sessionStorage`).
`available = false` models an unavailable persistence layer in its
silently-degraded form: reads yield nothing and writes do not persist. -/
structure KVStore where
  available : Bool
  entries : List (String × String)
deriving DecidableEq, Repr

/-- `storage.getItem(key)`: the stored value, `null` when absent or when
the layer is unavailable. -/
def KVStore.getItem (s : KVStore) (k : String) : Option String :=
  if s.available then (s.entries.find? (fun e => e.1 = k)).map (fun e => e.2) else none

/-- `storage.setItem(key, value)`: overwrites the slot; a no-op when the
layer is unavailable. -/
def KVStore.setItem (s : KVStore) (k v : String) : KVStore :=
  if s.available then { s with entries := (k, v) :: s.entries.filter (fun e => e.1 ≠ k) }
  else s

/-- `SessionService.getOrCreateDeviceId`: read the `'deviceId'` slot of
`localStorage`; when absent generate a UUID (`generateUUID()` is random,
modelled by the `freshId` argument) and store it.  Returns the id and the
storage after the call. -/
def getOrCreateDeviceId (freshId : String) (store : KVStore) : String × KVStore :=
  match store.getItem "deviceId" with
  | some deviceId => (deviceId, store)
  | none => (freshId, store.setItem "deviceId" freshId)

/-- `SessionService.getOrCreateTabId`: same as `getOrCreateDeviceId` but on
the `'tabId'` slot of `sessionStorage`. -/
def getOrCreateTabId (freshId : String) (store : KVStore) : String × KVStore :=
  match store.getItem "tabId" with
  | some tabId => (tabId, store)
  | none => (freshId, store.setItem "tabId" freshId)

/-- Claim C1: the transition function evaluated at a heartbeat tick with
`elapsed = now - lastActivityTime` returns Stale exactly when
`elapsed > 30` minutes (whatever the focus flag), Idle exactly when
`elapsed ≤ 30` minutes and (`elapsed > 5` minutes or the tab is
unfocused), and Active exactly when `elapsed ≤ 5` minutes and the tab is
focused; stated as three characterising equivalences, so on every input
exactly one of the three states is produced. -/
theorem computeState_transition (now lastActivityTime : Int) (isFocused : Bool) :
    (computeState (now - lastActivityTime) isFocused = .stale ↔
      now - lastActivityTime > staleTimeout) ∧
    (computeState (now - lastActivityTime) isFocused = .idle ↔
      now - lastActivityTime ≤ staleTimeout ∧
        (now - lastActivityTime > idleTimeout ∨ isFocused = false)) ∧
    (computeState (now - lastActivityTime) isFocused = .active ↔
      now - lastActivityTime ≤ idleTimeout ∧ isFocused = true) := by
  cases isFocused <;>
    · unfold computeState staleTimeout idleTimeout
      split_ifs with h1 h2 <;> refine ⟨?_, ?_, ?_⟩ <;> simp_all <;> omega

/-- Claim C2: `getTabState` classifies a fetched row from
`now - last_seen` alone: Stale iff the difference exceeds 30 minutes,
Idle iff it is above 5 minutes but at most 30, Active otherwise; two rows
with equal `last_seen` classify identically whatever their other
fields. -/
theorem getTabState_spec (now : Int) (t1 t2 : Tab) :
    (getTabState now t1 = .stale ↔ now - t1.last_seen > 30 * 60 * 1000) ∧
    (getTabState now t1 = .idle ↔
      5 * 60 * 1000 < now - t1.last_seen ∧ now - t1.last_seen ≤ 30 * 60 * 1000) ∧
    (getTabState now t1 = .active ↔ now - t1.last_seen ≤ 5 * 60 * 1000) ∧
    (t1.last_seen = t2.last_seen → getTabState now t1 = getTabState now t2) := by
  refine ⟨?_, ?_, ?_, ?_⟩
  · simp only [getTabState]; split_ifs <;> simp_all
  · simp only [getTabState]; split_ifs <;> simp_all
    omega
  · simp only [getTabState]; split_ifs <;> simp_all <;> omega
  · intro h; simp only [getTabState, h]

/-- Witness for Claim C1 at a concrete unfocused input 31 minutes after
the last activity. -/
theorem computeState_transition_witness :
    computeState ((1860000 : Int) - 0) false = .stale ↔
      (1860000 : Int) - 0 > staleTimeout :=
  (computeState_transition 1860000 0 false).1

/-- Witness for Claim C2 at a concrete pair of rows differing only in
`is_active`. -/
theorem getTabState_spec_witness :
    getTabState 400000 ⟨"u", "d", "t", "ua", true, 0, 0⟩ =
      getTabState 400000 ⟨"u", "d", "t2", "ua2", false, 0, 5⟩ :=
  (getTabState_spec 400000 ⟨"u", "d", "t", "ua", true, 0, 0⟩
    ⟨"u", "d", "t2", "ua2", false, 0, 5⟩).2.2.2 rfl

/-- Claim C4: effect of each activity event on the monitor state: focus
gain and visibility-becomes-visible set the focus flag and refresh
`lastActivityTime`; focus loss and visibility-becomes-hidden clear the
flag and leave `lastActivityTime` unchanged; the three interaction
events refresh `lastActivityTime` and leave the flag unchanged. -/
theorem applyActivityEvent_spec (now : Int) (s : ActivityState) (e : ActivityEvent) :
    ((e = .focus ∨ e = .visibilityVisible) →
      (applyActivityEvent now s e).isFocused = true ∧
      (applyActivityEvent now s e).lastActivityTime = now) ∧
    ((e = .blur ∨ e = .visibilityHidden) →
      (applyActivityEvent now s e).isFocused = false ∧
      (applyActivityEvent now s e).lastActivityTime = s.lastActivityTime) ∧
    ((e = .mousedown ∨ e = .keydown ∨ e = .touchstart) →
      (applyActivityEvent now s e).lastActivityTime = now ∧
      (applyActivityEvent now s e).isFocused = s.isFocused) := by
  cases e <;> simp [applyActivityEvent]

/-- Witness for Claim C4 at concrete events. -/
theorem applyActivityEvent_spec_witness :
    ((applyActivityEvent 7 ⟨0, true⟩ .blur).isFocused = false ∧
      (applyActivityEvent 7 ⟨0, true⟩ .blur).lastActivityTime = 0) ∧
    ((applyActivityEvent 7 ⟨0, false⟩ .keydown).lastActivityTime = 7 ∧
      (applyActivityEvent 7 ⟨0, false⟩ .keydown).isFocused = false) :=
  ⟨(applyActivityEvent_spec 7 ⟨0, true⟩ .blur).2.1 (Or.inl rfl),
   (applyActivityEvent_spec 7 ⟨0, false⟩ .keydown).2.2 (Or.inr (Or.inl rfl))⟩

/-- Unfolding of `updatePresenceState` on a live record. -/
lemma updatePresenceState_some (now lastActivityTime : Int) (isCurrentlyActive : Bool)
    (p : TabPresence) :
    updatePresenceState now lastActivityTime isCurrentlyActive (some p) =
      some { p with
             isActive := isCurrentlyActive
             lastSeen := now
             state := computeState (now - lastActivityTime) isCurrentlyActive } := rfl

/-- Claim C3: on a live record every heartbeat tick writes the tick's
wall-clock `now` into `lastSeen`, whatever `lastActivityTime`, the focus
flag and the computed state are (the statement quantifies over all of
them, in particular it holds when the computed state is Stale), and the
subsequent upsert persists exactly this tick-time value as `last_seen`. -/
theorem heartbeat_lastSeen_is_tick_time (now lastActivityTime : Int)
    (isCurrentlyActive : Bool) (p : TabPresence) (writeError : Option String) :
    ∃ p', updatePresenceState now lastActivityTime isCurrentlyActive (some p) = some p' ∧
      p'.lastSeen = now ∧
      p'.state = computeState (now - lastActivityTime) isCurrentlyActive ∧
      (upsertPresence (some p') writeError).1 = some (presenceRow p') ∧
      (presenceRow p').last_seen = now := by
  refine ⟨_, updatePresenceState_some now lastActivityTime isCurrentlyActive p,
    rfl, rfl, ?_, rfl⟩
  cases writeError <;> rfl

/-- Witness for Claim C3 at a tick whose computed state is Stale
(31 minutes of inactivity, unfocused). -/
theorem heartbeat_lastSeen_is_tick_time_witness :
    ∃ p', updatePresenceState 1860000 0 false
        (some ⟨"u", "d", "t", true, 0, "ua", .active⟩) = some p' ∧
      p'.lastSeen = 1860000 ∧
      p'.state = computeState ((1860000 : Int) - 0) false ∧
      (upsertPresence (some p') none).1 = some (presenceRow p') ∧
      (presenceRow p').last_seen = 1860000 :=
  heartbeat_lastSeen_is_tick_time 1860000 0 false
    ⟨"u", "d", "t", true, 0, "ua", .active⟩ none

/-- The heartbeat state recursion of Claim C10: `updatePresenceState`
folded over a list of `(now, lastActivityTime, isCurrentlyActive)` tick
environments. -/
def runUpdates : Option TabPresence → List (Int × Int × Bool) → Option TabPresence
  | st, [] => st
  | st, i :: rest => runUpdates (updatePresenceState i.1 i.2.1 i.2.2 st) rest

lemma runUpdates_identity_fields (ticks : List (Int × Int × Bool)) (p : TabPresence) :
    ∃ q, runUpdates (some p) ticks = some q ∧
      q.userId = p.userId ∧ q.deviceId = p.deviceId ∧
      q.tabId = p.tabId ∧ q.userAgent = p.userAgent := by
  induction ticks generalizing p with
  | nil => exact ⟨p, rfl, rfl, rfl, rfl, rfl⟩
  | cons i rest ih =>
    obtain ⟨q, hq, h1, h2, h3, h4⟩ :=
      ih { p with
           isActive := i.2.2
           lastSeen := i.1
           state := computeState (i.1 - i.2.1) i.2.2 }
    exact ⟨q, hq, h1, h2, h3, h4⟩

/-- Claim C10: each tick re-derives the record by spreading the previous
one, so it can only change `isActive`, `lastSeen` and `state`; and after
any sequence of ticks started from the record built at initialization the
record still carries the initial `userId`, `deviceId`, `tabId` and
`userAgent`. -/
theorem heartbeat_rederives_record (userId deviceId tabId userAgent : String)
    (t0 : Int) (ticks : List (Int × Int × Bool)) :
    (∀ (p : TabPresence) (now lastActivityTime : Int) (isCurrentlyActive : Bool),
      updatePresenceState now lastActivityTime isCurrentlyActive (some p) =
        some { p with
               isActive := isCurrentlyActive
               lastSeen := now
               state := computeState (now - lastActivityTime) isCurrentlyActive }) ∧
    (∃ q, runUpdates (some (initialPresence userId deviceId tabId userAgent t0)) ticks
        = some q ∧
      q.userId = userId ∧ q.deviceId = deviceId ∧
      q.tabId = tabId ∧ q.userAgent = userAgent) :=
  ⟨fun p now la f => updatePresenceState_some now la f p,
   runUpdates_identity_fields ticks (initialPresence userId deviceId tabId userAgent t0)⟩

/-- Witness for Claim C10 at a concrete initialization followed by two
ticks. -/
theorem heartbeat_rederives_record_witness :
    (∀ (p : TabPresence) (now lastActivityTime : Int) (isCurrentlyActive : Bool),
      updatePresenceState now lastActivityTime isCurrentlyActive (some p) =
        some { p with
               isActive := isCurrentlyActive
               lastSeen := now
               state := computeState (now - lastActivityTime) isCurrentlyActive }) ∧
    (∃ q, runUpdates (some (initialPresence "u" "d" "t" "ua" 0))
        [(30000, 0, true), (60000, 0, false)] = some q ∧
      q.userId = "u" ∧ q.deviceId = "d" ∧ q.tabId = "t" ∧ q.userAgent = "ua") :=
  heartbeat_rederives_record "u" "d" "t" "ua" 0 [(30000, 0, true), (60000, 0, false)]

/-- The record produced from `p` by the recompute step of a tick. -/
def tickRecord (p : TabPresence) (i : TickInput) : TabPresence :=
  { p with
    isActive := i.isCurrentlyActive
    lastSeen := i.now
    state := computeState (i.now - i.lastActivityTime) i.isCurrentlyActive }

/-- Claim C5: a failed remote write at a heartbeat tick is logged and
dropped: the in-memory record after the failing tick is exactly what the
state recomputation alone produces (independent of the write outcome,
hence unaffected by the failure), the failure appears in the log, no
second write happens within the tick, and the next tick still attempts a
write whose row carries that tick's freshly recomputed `last_seen`. -/
theorem upsert_failure_logged_and_dropped (p : TabPresence) (i1 i2 : TickInput)
    (e : String) (h : i1.writeError = some e) :
    (heartbeatTick (some p) i1).1 =
      updatePresenceState i1.now i1.lastActivityTime i1.isCurrentlyActive (some p) ∧
    (heartbeatTick (some p) i1).2.2 = ["Failed to upsert presence: " ++ e] ∧
    (runHeartbeat (some p) [i1, i2]).2.map Prod.fst =
      [some (presenceRow (tickRecord p i1)),
       some (presenceRow (tickRecord (tickRecord p i1) i2))] ∧
    (presenceRow (tickRecord (tickRecord p i1) i2)).last_seen = i2.now := by
  refine ⟨rfl, ?_, ?_, rfl⟩
  · simp [heartbeatTick, updatePresenceState_some, upsertPresence, h]
  · simp [runHeartbeat, heartbeatTick, updatePresenceState_some, upsertPresence, h,
      tickRecord]
    cases i2.writeError <;> simp [upsertPresence]

/-- Concrete record for the Claim C5 witness. -/
def pEx : TabPresence :=
  { userId := "u", deviceId := "d", tabId := "t", isActive := true,
    lastSeen := 0, userAgent := "ua", state := .active }

/-- Concrete failing tick for the Claim C5 witness. -/
def i1Ex : TickInput :=
  ⟨30000, 0, true, some "network error"⟩

/-- Concrete follow-up tick for the Claim C5 witness. -/
def i2Ex : TickInput :=
  ⟨60000, 0, true, none⟩

/-- Witness for Claim C5: one simulated network error, next tick still
writes. -/
theorem upsert_failure_logged_and_dropped_witness :
    (heartbeatTick (some pEx) i1Ex).1 =
      updatePresenceState i1Ex.now i1Ex.lastActivityTime i1Ex.isCurrentlyActive
        (some pEx) ∧
    (heartbeatTick (some pEx) i1Ex).2.2 =
      ["Failed to upsert presence: " ++ "network error"] ∧
    (runHeartbeat (some pEx) [i1Ex, i2Ex]).2.map Prod.fst =
      [some (presenceRow (tickRecord pEx i1Ex)),
       some (presenceRow (tickRecord (tickRecord pEx i1Ex) i2Ex))] ∧
    (presenceRow (tickRecord (tickRecord pEx i1Ex) i2Ex)).last_seen = i2Ex.now :=
  upsert_failure_logged_and_dropped pEx i1Ex i2Ex "network error" rfl

/-- Claim C6: when a registry fetch fails — an `error` result (whatever
`data` accompanies it) or a thrown exception — the message lands in the
error signal and the previously fetched tabs are retained unchanged; only
a successful fetch with non-null data replaces them (and clears the error
signal). -/
theorem fetchTabs_failure_retains_tabs (st : TabsStoreState) (userId : String)
    (huser : userId ≠ "") (e msg : String) (d : Option (List Tab))
    (tabs : List Tab) :
    (fetchTabs st userId (.res d (some e))).allTabs = st.allTabs ∧
    (fetchTabs st userId (.res d (some e))).error = some e ∧
    (fetchTabs st userId (.thrown msg)).allTabs = st.allTabs ∧
    (fetchTabs st userId (.thrown msg)).error = some msg ∧
    (fetchTabs st userId (.res (some tabs) none)).allTabs = tabs ∧
    (fetchTabs st userId (.res (some tabs) none)).error = none := by
  simp [fetchTabs, huser]

/-- Witness for Claim C6 at a concrete store state and failure. -/
theorem fetchTabs_failure_retains_tabs_witness :
    (fetchTabs ⟨[⟨"u", "d", "t", "ua", true, 0, 0⟩], false, none⟩ "u"
        (.res none (some "boom"))).allTabs =
      [⟨"u", "d", "t", "ua", true, 0, 0⟩] ∧
    (fetchTabs ⟨[⟨"u", "d", "t", "ua", true, 0, 0⟩], false, none⟩ "u"
        (.res none (some "boom"))).error = some "boom" :=
  ⟨(fetchTabs_failure_retains_tabs ⟨[⟨"u", "d", "t", "ua", true, 0, 0⟩], false, none⟩
      "u" (by decide) "boom" "m" none []).1,
   (fetchTabs_failure_retains_tabs ⟨[⟨"u", "d", "t", "ua", true, 0, 0⟩], false, none⟩
      "u" (by decide) "boom" "m" none []).2.1⟩

/-- Counterexample to Claim C8 as stated: calling presence initialization
with the empty user id does create a presence record and does attempt a
row write to the shared store (with `user_id = ""`), so the core does not
refuse to initialize presence when no user id is present. -/
theorem initializePresence_no_guard_cex :
    (initializePresence "" "dev" "tab" "ua" 0 none).1 =
      some (initialPresence "" "dev" "tab" "ua" 0) ∧
    (initializePresence "" "dev" "tab" "ua" 0 none).2.1 =
      some ⟨"", "dev", "tab", "ua", true, 0⟩ := by
  exact ⟨rfl, rfl⟩

/-- Claim C8 (amended): the registry fetch path refuses a missing user id —
`fetchTabs` with an empty id sets the error signal to
`'No user ID provided'` and returns at once, leaving the tab collection
(and the loading flag) untouched and performing no query — but the
presence initialization path has no such guard: `initializePresence`
creates the presence record and attempts the immediate row write even for
an empty user id. -/
theorem missing_user_id_guard (st : TabsStoreState) (r : FetchResult)
    (deviceId tabId userAgent : String) (now : Int) (writeError : Option String) :
    fetchTabs st "" r = { st with error := some "No user ID provided" } ∧
    (fetchTabs st "" r).allTabs = st.allTabs ∧
    (fetchTabs st "" r).isLoading = st.isLoading ∧
    (initializePresence "" deviceId tabId userAgent now writeError).1 =
      some (initialPresence "" deviceId tabId userAgent now) ∧
    (initializePresence "" deviceId tabId userAgent now writeError).2.1 =
      some (presenceRow (initialPresence "" deviceId tabId userAgent now)) := by
  refine ⟨by simp [fetchTabs], by simp [fetchTabs], by simp [fetchTabs], rfl, ?_⟩
  cases writeError <;> rfl

/-- Witness for Claim C8 (amended) at a concrete store state and fetch
result. -/
theorem missing_user_id_guard_witness :
    fetchTabs ⟨[], false, none⟩ "" (.res (some []) none) =
      { (⟨[], false, none⟩ : TabsStoreState) with error := some "No user ID provided" } ∧
    (fetchTabs ⟨[], false, none⟩ "" (.res (some []) none)).allTabs =
      TabsStoreState.allTabs ⟨[], false, none⟩ ∧
    (fetchTabs ⟨[], false, none⟩ "" (.res (some []) none)).isLoading =
      TabsStoreState.isLoading ⟨[], false, none⟩ ∧
    (initializePresence "" "dev" "tab" "ua" 5 none).1 =
      some (initialPresence "" "dev" "tab" "ua" 5) ∧
    (initializePresence "" "dev" "tab" "ua" 5 none).2.1 =
      some (presenceRow (initialPresence "" "dev" "tab" "ua" 5)) :=
  missing_user_id_guard ⟨[], false, none⟩ (.res (some []) none) "dev" "tab" "ua" 5 none

/-- Claim C9: with the persistence layer unavailable (reads return
nothing, writes do not persist — the silently-degraded storage mode), both
identifier getters return normally with the freshly generated identifier
and leave the storage exactly as it was: nothing is persisted and no
failure is propagated. -/
theorem session_ids_degrade_ephemeral (freshDevice freshTab : String)
    (localStore sessionStore : KVStore)
    (hl : localStore.available = false) (hs : sessionStore.available = false) :
    getOrCreateDeviceId freshDevice localStore = (freshDevice, localStore) ∧
    getOrCreateTabId freshTab sessionStore = (freshTab, sessionStore) := by
  constructor
  · simp [getOrCreateDeviceId, KVStore.getItem, KVStore.setItem, hl]
  · simp [getOrCreateTabId, KVStore.getItem, KVStore.setItem, hs]

/-- Witness for Claim C9 at a concrete unavailable store. -/
theorem session_ids_degrade_ephemeral_witness :
    getOrCreateDeviceId "fresh-device" ⟨false, [("deviceId", "old")]⟩ =
      ("fresh-device", ⟨false, [("deviceId", "old")]⟩) ∧
    getOrCreateTabId "fresh-tab" ⟨false, []⟩ = ("fresh-tab", ⟨false, []⟩) :=
  session_ids_degrade_ephemeral "fresh-device" "fresh-tab"
    ⟨false, [("deviceId", "old")]⟩ ⟨false, []⟩ rfl rfl

/-- `grouped.get(d)` on the association-list view of the JS `Map`
(`[]` when the key is absent). -/
def lookupTabs : List GroupedTabs → String → List Tab
  | [], _ => []
  | g :: rest, d => if g.deviceId = d then g.tabs else lookupTabs rest d

/-- Key-insertion step of the JS `Map`: append the key iff it is new. -/
def addKey (ks : List String) (d : String) : List String :=
  if d ∈ ks then ks else ks ++ [d]

/-- The distinct values of a list in order of first occurrence. -/
def firstOccurrences (ds : List String) : List String := ds.foldl addKey []

lemma lookupTabs_insertTab (gs : List GroupedTabs) (t : Tab) (d : String) :
    lookupTabs (insertTab gs t) d =
      if t.device_id = d then lookupTabs gs d ++ [t] else lookupTabs gs d := by
  induction gs with
  | nil =>
    simp only [insertTab, lookupTabs]
    split_ifs <;> simp_all [lookupTabs]
  | cons g rest ih =>
    simp only [insertTab]
    split_ifs with h1 <;> simp only [lookupTabs] <;> split_ifs <;> simp_all

lemma keys_insertTab (gs : List GroupedTabs) (t : Tab) :
    (insertTab gs t).map (fun g => g.deviceId) =
      addKey (gs.map (fun g => g.deviceId)) t.device_id := by
  induction gs with
  | nil => simp [insertTab, addKey]
  | cons g rest ih =>
    simp only [insertTab]
    split_ifs with h1
    · simp [addKey, h1]
    · have h1' : t.device_id ≠ g.deviceId := fun h => h1 h.symm
      simp only [List.map_cons, ih, addKey, List.mem_cons, h1', false_or]
      by_cases hmem : t.device_id ∈ rest.map (fun g => g.deviceId) <;> simp [hmem]

lemma lookupTabs_foldl (ts : List Tab) (gs : List GroupedTabs) (d : String) :
    lookupTabs (ts.foldl insertTab gs) d =
      lookupTabs gs d ++ ts.filter (fun t => t.device_id = d) := by
  induction ts generalizing gs with
  | nil => simp
  | cons t ts ih =>
    simp only [List.foldl_cons, List.filter_cons, ih, lookupTabs_insertTab]
    split_ifs with h <;> simp_all

lemma keys_foldl (ts : List Tab) (gs : List GroupedTabs) :
    (ts.foldl insertTab gs).map (fun g => g.deviceId) =
      (ts.map (fun t => t.device_id)).foldl addKey (gs.map (fun g => g.deviceId)) := by
  induction ts generalizing gs with
  | nil => simp
  | cons t ts ih => simp [ih, keys_insertTab]

lemma addKey_nodup (ks : List String) (d : String) (h : ks.Nodup) :
    (addKey ks d).Nodup := by
  unfold addKey
  split_ifs with hd
  · exact h
  · simp [List.nodup_append, h, hd]

lemma foldl_addKey_nodup (ds : List String) (ks : List String) (h : ks.Nodup) :
    (ds.foldl addKey ks).Nodup := by
  induction ds generalizing ks with
  | nil => exact h
  | cons d ds ih => exact ih _ (addKey_nodup _ _ h)

lemma toFinset_addKey (ks : List String) (d : String) :
    (addKey ks d).toFinset = insert d ks.toFinset := by
  unfold addKey
  split_ifs with hd
  · simp [Finset.insert_eq_self.mpr (List.mem_toFinset.mpr hd)]
  · simp [Finset.insert_eq, Finset.union_comm]

lemma toFinset_foldl_addKey (ds : List String) (ks : List String) :
    (ds.foldl addKey ks).toFinset = ks.toFinset ∪ ds.toFinset := by
  induction ds generalizing ks with
  | nil => simp
  | cons d ds ih =>
    simp [ih, toFinset_addKey, Finset.insert_union, Finset.union_insert]

lemma sum_insertTab (gs : List GroupedTabs) (t : Tab) :
    ((insertTab gs t).map (fun g => g.tabs.length)).sum =
      ((gs.map (fun g => g.tabs.length)).sum) + 1 := by
  induction gs with
  | nil => simp [insertTab]
  | cons g rest ih =>
    simp only [insertTab]
    split_ifs with h1 <;> simp_all <;> omega

lemma sum_foldl (ts : List Tab) (gs : List GroupedTabs) :
    ((ts.foldl insertTab gs).map (fun g => g.tabs.length)).sum =
      ((gs.map (fun g => g.tabs.length)).sum) + ts.length := by
  induction ts generalizing gs with
  | nil => simp
  | cons t ts ih => simp [ih, sum_insertTab]; omega

lemma lookupTabs_of_mem (gs : List GroupedTabs) (g : GroupedTabs)
    (hnd : (gs.map (fun g => g.deviceId)).Nodup) (hg : g ∈ gs) :
    lookupTabs gs g.deviceId = g.tabs := by
  induction gs with
  | nil => cases hg
  | cons g0 rest ih =>
    rcases List.mem_cons.mp hg with h | h
    · subst h; simp [lookupTabs]
    · simp only [List.map_cons, List.nodup_cons] at hnd
      have hne : g0.deviceId ≠ g.deviceId := by
        intro he
        have hm : g.deviceId ∈ rest.map (fun x => x.deviceId) :=
          List.mem_map_of_mem (fun x => x.deviceId) h
        rw [← he] at hm
        exact hnd.1 hm
      simp only [lookupTabs, if_neg hne]
      exact ih hnd.2 h

lemma mem_of_lookupTabs_ne_nil (gs : List GroupedTabs) (d : String)
    (h : lookupTabs gs d ≠ []) :
    ∃ g, g ∈ gs ∧ g.deviceId = d ∧ g.tabs = lookupTabs gs d := by
  induction gs with
  | nil => exact absurd rfl h
  | cons g0 rest ih =>
    by_cases hd : g0.deviceId = d
    · exact ⟨g0, List.mem_cons_self _ _, hd, by simp [lookupTabs, hd]⟩
    · have h' : lookupTabs rest d ≠ [] := by simpa [lookupTabs, hd] using h
      obtain ⟨g, hg, h1, h2⟩ := ih h'
      exact ⟨g, List.mem_cons_of_mem _ hg, h1, by simpa [lookupTabs, hd] using h2⟩

/-- Claim C7: `groupedTabs` partitions the fetched records by `device_id`:
the group keys are pairwise distinct and are exactly the distinct
`device_id` values in order of first occurrence; every group holds
precisely the input records carrying its key, in input order; every
record lands in the group of its own `device_id`; the group sizes sum to
the input length; and the number of groups equals the number of distinct
`device_id` values. -/
theorem groupedTabs_partition (ts : List Tab) :
    ((groupedTabs ts).map (fun g => g.deviceId) =
      firstOccurrences (ts.map (fun t => t.device_id))) ∧
    ((groupedTabs ts).map (fun g => g.deviceId)).Nodup ∧
    (∀ g ∈ groupedTabs ts, g.tabs = ts.filter (fun t => t.device_id = g.deviceId)) ∧
    (∀ t ∈ ts, ∃ g, g ∈ groupedTabs ts ∧ g.deviceId = t.device_id ∧ t ∈ g.tabs) ∧
    ((groupedTabs ts).map (fun g => g.tabs.length)).sum = ts.length ∧
    (groupedTabs ts).length = (ts.map (fun t => t.device_id)).toFinset.card := by
  have hkeys : (groupedTabs ts).map (fun g => g.deviceId) =
      firstOccurrences (ts.map (fun t => t.device_id)) := by
    simpa [groupedTabs, firstOccurrences] using keys_foldl ts []
  have hnd : ((groupedTabs ts).map (fun g => g.deviceId)).Nodup := by
    rw [hkeys]
    exact foldl_addKey_nodup _ [] List.nodup_nil
  have hlook : ∀ d, lookupTabs (groupedTabs ts) d =
      ts.filter (fun t => t.device_id = d) := by
    intro d
    simpa [groupedTabs, lookupTabs] using lookupTabs_foldl ts [] d
  refine ⟨hkeys, hnd, ?_, ?_, ?_, ?_⟩
  · intro g hg
    rw [← lookupTabs_of_mem (groupedTabs ts) g hnd hg]
    exact (hlook g.deviceId).symm ▸ hlook g.deviceId
  · intro t ht
    have hmem : t ∈ lookupTabs (groupedTabs ts) t.device_id := by
      rw [hlook]
      exact List.mem_filter.mpr ⟨ht, by simp⟩
    have hne : lookupTabs (groupedTabs ts) t.device_id ≠ [] := by
      intro h0
      rw [h0] at hmem
      cases hmem
    obtain ⟨g, hg, h1, h2⟩ := mem_of_lookupTabs_ne_nil _ _ hne
    exact ⟨g, hg, h1, h2 ▸ hmem⟩
  · simpa [groupedTabs] using sum_foldl ts []
  · have hlen : (groupedTabs ts).length =
        ((groupedTabs ts).map (fun g => g.deviceId)).length := by simp
    rw [hlen, hkeys]
    have hfin : (firstOccurrences (ts.map (fun t => t.device_id))).toFinset =
        (ts.map (fun t => t.device_id)).toFinset := by
      simpa [firstOccurrences] using toFinset_foldl_addKey (ts.map fun t => t.device_id) []
    rw [← hfin]
    exact (List.toFinset_card_of_nodup (hkeys ▸ hnd)).symm

/-- Concrete fetch result for the Claim C7 witness: three records across
two distinct devices. -/
def tsEx : List Tab :=
  [⟨"u", "devA", "t1", "ua", true, 0, 0⟩,
   ⟨"u", "devB", "t2", "ua", false, 10, 0⟩,
   ⟨"u", "devA", "t3", "ua", true, 20, 0⟩]

/-- Witness for Claim C7: three records over two devices, as in the spec's
Scenario D. -/
theorem groupedTabs_partition_witness :
    ((groupedTabs tsEx).map (fun g => g.deviceId) =
      firstOccurrences (tsEx.map (fun t => t.device_id))) ∧
    ((groupedTabs tsEx).map (fun g => g.deviceId)).Nodup ∧
    (∀ g ∈ groupedTabs tsEx, g.tabs = tsEx.filter (fun t => t.device_id = g.deviceId)) ∧
    (∀ t ∈ tsEx, ∃ g, g ∈ groupedTabs tsEx ∧ g.deviceId = t.device_id ∧ t ∈ g.tabs) ∧
    ((groupedTabs tsEx).map (fun g => g.tabs.length)).sum = tsEx.length ∧
    (groupedTabs tsEx).length = (tsEx.map (fun t => t.device_id)).toFinset.card :=
  groupedTabs_partition tsEx

end NotionApp
